import Mathlib

/-!
Verification of the OAuth device-authorization core of the
`pi-provider-kimi-code` extension (`src/index.ts`).

The TypeScript functions `requestDeviceAuthorization`, `requestDeviceToken`,
`refreshAccessToken`, `loginKimiCode` and `refreshKimiCodeToken` are embedded
shallowly: each network call is modelled as a pure function of the HTTP
response it receives, and the `loginKimiCode` orchestrator is modelled as a
recursion over a script of responses, time samples and abort-signal samples,
emitting a trace of observable actions (POSTs, sleeps, callbacks).
-/

namespace KimiCode

/-- The fetch API check `response.ok`: status in the range 200..299. -/
def httpOk (status : Nat) : Bool := 200 ≤ status && status < 300

/-- JavaScript truthiness of a string-valued JSON field that may be absent
(`undefined`) — both `undefined` and `""` are falsy. -/
def truthy : Option String → Bool
  | none => false
  | some s => !(s == "")

/-- JavaScript `v || d` for a string field (`undefined` and `""` select `d`). -/
def jsStrOr (v : Option String) (d : String) : String :=
  match v with
  | none => d
  | some s => if s == "" then d else s

/-- JavaScript `v || d` for an integer-valued field (`undefined` and `0` are
falsy and select `d`). -/
def jsIntOr (v : Option Int) (d : Int) : Int :=
  match v with
  | none => d
  | some n => if n == 0 then d else n

/-- The `DeviceAuthorization` interface of `src/index.ts`. -/
structure DeviceAuthorization where
  user_code : String
  device_code : String
  verification_uri : String
  verification_uri_complete : String
  expires_in : Int
  interval : Int
  deriving Repr, DecidableEq

/-- The `TokenResponse` interface of `src/index.ts`. -/
structure TokenResponse where
  access_token : String
  refresh_token : String
  expires_in : Int
  scope : String
  token_type : String
  deriving Repr, DecidableEq

/-- The `OAuthCredentials` shape returned to the host
(`{ access, refresh, expires }`, `expires` in epoch milliseconds). -/
structure OAuthCredentials where
  access : String
  refresh : String
  expires : Int
  deriving Repr, DecidableEq

/-- The HTTP response observed by `requestDeviceAuthorization`: status plus
the parsed JSON fields it reads (each possibly absent) and the body text read
on failure. -/
structure DeviceAuthHttpResponse where
  status : Nat
  user_code : Option String := none
  device_code : Option String := none
  verification_uri : Option String := none
  verification_uri_complete : Option String := none
  expires_in : Option Int := none
  interval : Option Int := none
  text : String := ""
  deriving Repr, DecidableEq

/-- The HTTP response observed by `requestDeviceToken` and by
`refreshAccessToken` (both POST to the same token endpoint): status plus the
JSON fields either function may read, and the body text read on failure. -/
structure TokenHttpResponse where
  status : Nat
  access_token : Option String := none
  refresh_token : Option String := none
  expires_in : Int := 0
  scope : String := ""
  token_type : String := ""
  error : Option String := none
  error_description : Option String := none
  text : String := ""
  deriving Repr, DecidableEq

/-- The function `requestDeviceAuthorization` (index.ts lines 86-123) as a function of the
received HTTP response. Errors are the `Error` messages the code throws. -/
def requestDeviceAuthorization (r : DeviceAuthHttpResponse) :
    Except String DeviceAuthorization :=
  if !(httpOk r.status) then
    .error ("Device authorization failed: " ++ toString r.status ++ " " ++ r.text)
  else if !(truthy r.user_code && truthy r.device_code
        && truthy r.verification_uri_complete) then
    .error "Invalid device authorization response"
  else
    .ok { user_code := r.user_code.getD ""
          device_code := r.device_code.getD ""
          verification_uri := jsStrOr r.verification_uri ""
          verification_uri_complete := r.verification_uri_complete.getD ""
          expires_in := jsIntOr r.expires_in 1800
          interval := jsIntOr r.interval 5 }

/-- The function `requestDeviceToken` (index.ts lines 125-160) as a function of the
received HTTP response. `.ok none` is the `null` return ("still waiting for
user"); `.error m` is a thrown `Error` with message `m`. -/
def requestDeviceToken (r : TokenHttpResponse) :
    Except String (Option TokenResponse) :=
  if r.status == 200 then
    if truthy r.access_token && truthy r.refresh_token then
      .ok (some { access_token := r.access_token.getD ""
                  refresh_token := r.refresh_token.getD ""
                  expires_in := r.expires_in
                  scope := r.scope
                  token_type := r.token_type })
    else
      .error "Token response missing required fields"
  else if r.status == 400 then
    if r.error == some "authorization_pending" then
      .ok none
    else if r.error == some "expired_token" then
      .error "expired_token"
    else
      .error ("Token request failed: "
        ++ jsStrOr r.error_description (jsStrOr r.error "unknown"))
  else
    .error ("Token request failed: " ++ toString r.status ++ " " ++ r.text)

/-- The function `refreshAccessToken` (index.ts lines 162-190) as a function of the
received HTTP response. -/
def refreshAccessToken (r : TokenHttpResponse) : Except String TokenResponse :=
  if !(httpOk r.status) then
    if r.status == 401 || r.status == 403 then
      .error ("Token refresh unauthorized: " ++ r.text)
    else
      .error ("Token refresh failed: " ++ toString r.status ++ " " ++ r.text)
  else if !(truthy r.access_token && truthy r.refresh_token) then
    .error "Token refresh response missing required fields"
  else
    .ok { access_token := r.access_token.getD ""
          refresh_token := r.refresh_token.getD ""
          expires_in := r.expires_in
          scope := r.scope
          token_type := r.token_type }

/-- The credential construction performed inline at index.ts lines 243-247
(login success) and 256-260 (refresh): `{ access: token.access_token,
refresh: token.refresh_token, expires: Date.now() + token.expires_in * 1000 }`
with `now` the value of `Date.now()` at construction time. -/
def mkCredentials (now : Int) (t : TokenResponse) : OAuthCredentials :=
  { access := t.access_token
    refresh := t.refresh_token
    expires := now + t.expires_in * 1000 }

/-- The function `refreshKimiCodeToken` (index.ts lines 254-261): one refresh exchange,
then credential construction at the current time. -/
def refreshKimiCodeToken (now : Int) (r : TokenHttpResponse) :
    Except String OAuthCredentials :=
  (refreshAccessToken r).map (mkCredentials now)

/-- An observable action of `loginKimiCode`: the POSTs it issues, the sleeps
it performs, and the host callbacks it invokes. -/
inductive Action where
  | authRequest : Action
  | pollRequest (device_code : String) : Action
  | sleepMs (ms : Int) : Action
  | onAuth (url : String) (instructions : String) : Action
  | onProgress (msg : String) : Action
  deriving Repr, DecidableEq

/-- One iteration of the inner polling loop of `loginKimiCode`, as scripted
by the environment: the value `Date.now()` returns at the loop-condition
check, the HTTP response the token poll receives, and the value
`callbacks.signal?.aborted` reads when (and if) the abort check runs in this
iteration. -/
structure IterEvent where
  now : Int
  poll : TokenHttpResponse
  aborted : Bool
  deriving Repr, DecidableEq

/-- Outcome of one round of the inner polling loop. -/
inductive PollOutcome where
  | success (t : TokenResponse) : PollOutcome
  | restart : PollOutcome
  | fatal (msg : String) : PollOutcome
  deriving Repr, DecidableEq

/-- The inner `while (Date.now() < expiresAt)` loop of `loginKimiCode`
(index.ts lines 212-240), for a fixed `auth`, sleep `interval` (ms) and
deadline `expiresAt`, consuming one `IterEvent` per iteration.
`printedWaiting` is the flag suppressing repeat "Waiting for authorization"
messages. Returns the outcome (`none` when the script ends before the loop
does) together with the emitted action trace. Per the source, each
iteration first checks the deadline, then issues exactly one token poll; on
a pending (`null`) result it runs the first-time progress callback, then the
abort check, then sleeps; on `expired_token` it reports and breaks to a
restart; any other thrown error propagates; a token breaks to success. -/
def pollLoop (auth : DeviceAuthorization) (interval expiresAt : Int)
    (printedWaiting : Bool) :
    List IterEvent → Option PollOutcome × List Action
  | [] => (none, [])
  | e :: rest =>
    if e.now < expiresAt then
      match requestDeviceToken e.poll with
      | .ok (some t) => (some (.success t), [.pollRequest auth.device_code])
      | .ok none =>
        let acts := [Action.pollRequest auth.device_code]
          ++ (if printedWaiting then []
              else [Action.onProgress "Waiting for authorization..."])
        if e.aborted then
          (some (.fatal "Authorization aborted"), acts)
        else
          let k := pollLoop auth interval expiresAt true rest
          (k.1, acts ++ [Action.sleepMs interval] ++ k.2)
      | .error msg =>
        if msg == "expired_token" then
          (some .restart,
            [Action.pollRequest auth.device_code,
             Action.onProgress "Device code expired, restarting..."])
        else
          (some (.fatal msg), [Action.pollRequest auth.device_code])
    else
      (some .restart, [])

/-- The environment script for one round of the outer `while (true)` loop of
`loginKimiCode`: the device-authorization HTTP response, the `Date.now()`
sample used to compute the deadline, the inner-loop iteration events, and
the `Date.now()` sample used when constructing credentials on success. -/
structure RoundScript where
  authResponse : DeviceAuthHttpResponse
  authNow : Int
  iters : List IterEvent
  successNow : Int
  deriving Repr, DecidableEq

/-- The function `loginKimiCode` (index.ts lines 196-252) as a recursion over a script of
rounds, one per outer-loop pass. Returns `none` when the script ends before
the call does (the real loop would keep running), otherwise the thrown error
or returned credentials, together with the trace of observable actions. Per
the source: each round issues one device-authorization POST (a failure there
propagates), invokes `onAuth` with the complete verification URL and the
user-code instructions, computes `interval = max(auth.interval, 1) * 1000`
and `expiresAt = Date.now() + auth.expires_in * 1000`, then runs the inner
poll loop; a token yields credentials stamped at the current time, a restart
falls through to the next round. -/
def loginKimiCode :
    List RoundScript → Option (Except String OAuthCredentials) × List Action
  | [] => (none, [])
  | r :: rest =>
    match requestDeviceAuthorization r.authResponse with
    | .error msg => (some (.error msg), [.authRequest])
    | .ok auth =>
      let head := [Action.authRequest,
        Action.onAuth auth.verification_uri_complete
          ("Please visit the URL to authorize. Your code: " ++ auth.user_code)]
      let interval := max auth.interval 1 * 1000
      let expiresAt := r.authNow + auth.expires_in * 1000
      let k := pollLoop auth interval expiresAt false r.iters
      match k.1 with
      | none => (none, head ++ k.2)
      | some (.success t) =>
        (some (.ok (mkCredentials r.successNow t)), head ++ k.2)
      | some (.fatal msg) => (some (.error msg), head ++ k.2)
      | some .restart =>
        let k' := loginKimiCode rest
        (k'.1, head ++ k.2 ++ k'.2)

/-- Number of token-exchange POSTs in a trace. -/
def countPolls (l : List Action) : Nat :=
  (l.filter (fun a => match a with | .pollRequest _ => true | _ => false)).length

/-- Number of device-authorization POSTs in a trace. -/
def countAuths (l : List Action) : Nat :=
  (l.filter (fun a => match a with | .authRequest => true | _ => false)).length

/-- The device codes carried by the token-exchange POSTs of a trace, in
order. -/
def pollCodes : List Action → List String
  | [] => []
  | .pollRequest c :: rest => c :: pollCodes rest
  | _ :: rest => pollCodes rest

/-- A scripted outer-loop round whose device authorization succeeds (device
code `dc1`) and whose single poll reports `expired_token`. -/
def expiredRound : RoundScript :=
  { authResponse := { status := 200
                      user_code := some "AB1"
                      device_code := some "dc1"
                      verification_uri_complete := some "https://u1" }
    authNow := 0
    iters := [{ now := 0
                poll := { status := 400, error := some "expired_token" }
                aborted := false }]
    successNow := 0 }

/-- A scripted outer-loop round whose device authorization succeeds (device
code `dc2`) and whose single poll returns a token. -/
def successRound : RoundScript :=
  { authResponse := { status := 200
                      user_code := some "AB2"
                      device_code := some "dc2"
                      verification_uri_complete := some "https://u2" }
    authNow := 0
    iters := [{ now := 0
                poll := { status := 200
                          access_token := some "at1"
                          refresh_token := some "rt1"
                          expires_in := 3600 }
                aborted := false }]
    successNow := 9 }

/-- A string append is never equal to a shorter string. -/
theorem append_ne_of_length_lt (p a q : String) (h : q.length < p.length) :
    p ++ a ≠ q := by
  intro he
  have hl := congrArg String.length he
  rw [String.length_append] at hl
  omega

/-- Two string appends whose left parts disagree on their first `n`
characters are unequal. -/
theorem append_ne_of_take_ne (p q a b : String) (n : Nat)
    (hp : n ≤ p.length) (hq : n ≤ q.length)
    (h : p.data.take n ≠ q.data.take n) : p ++ a ≠ q ++ b := by
  intro he
  apply h
  have hd : (p ++ a).data = (q ++ b).data := congrArg String.data he
  rw [String.data_append, String.data_append] at hd
  have ht := congrArg (List.take n) hd
  rwa [List.take_append_of_le_length hp, List.take_append_of_le_length hq] at ht

/-- Taking at most the left part of a string append takes from the left
part only. -/
theorem take_data_append (p a : String) (n : Nat) (h : n ≤ p.length) :
    (p ++ a).data.take n = p.data.take n := by
  rw [String.data_append, List.take_append_of_le_length h]

/-- C4: a successful device-authorization response in which `expires_in` is
absent yields a `DeviceAuthorization` with lifetime 1800, and one in which
`interval` is absent yields poll interval 5. -/
theorem deviceAuth_defaults_on_absent (r : DeviceAuthHttpResponse)
    (hok : httpOk r.status = true)
    (hu : truthy r.user_code = true) (hd : truthy r.device_code = true)
    (hv : truthy r.verification_uri_complete = true) :
    (∃ a, requestDeviceAuthorization r = .ok a)
    ∧ ∀ a, requestDeviceAuthorization r = .ok a →
        (r.expires_in = none → a.expires_in = 1800)
        ∧ (r.interval = none → a.interval = 5) := by
  constructor
  · have h : requestDeviceAuthorization r = .ok
        { user_code := r.user_code.getD ""
          device_code := r.device_code.getD ""
          verification_uri := jsStrOr r.verification_uri ""
          verification_uri_complete := r.verification_uri_complete.getD ""
          expires_in := jsIntOr r.expires_in 1800
          interval := jsIntOr r.interval 5 } := by
      simp [requestDeviceAuthorization, hok, hu, hd, hv]
    exact ⟨_, h⟩
  · intro a ha
    simp [requestDeviceAuthorization, hok, hu, hd, hv] at ha
    constructor
    · intro h
      rw [← ha]
      simp [h, jsIntOr]
    · intro h
      rw [← ha]
      simp [h, jsIntOr]

/-- C4 witness: a concrete successful response omitting both fields gets
lifetime 1800 and interval 5. -/
theorem deviceAuth_defaults_on_absent_witness :
    (requestDeviceAuthorization
        { status := 200, user_code := some "AB", device_code := some "dc",
          verification_uri_complete := some "https://u" }).toOption.map
        DeviceAuthorization.expires_in = some 1800
    ∧ (requestDeviceAuthorization
        { status := 200, user_code := some "AB", device_code := some "dc",
          verification_uri_complete := some "https://u" }).toOption.map
        DeviceAuthorization.interval = some 5 := by
  obtain ⟨⟨a, ha⟩, hall⟩ := deviceAuth_defaults_on_absent
    { status := 200, user_code := some "AB", device_code := some "dc",
      verification_uri_complete := some "https://u" }
    (by decide) (by decide) (by decide) (by decide)
  obtain ⟨h1, h2⟩ := hall a ha
  rw [ha]
  exact ⟨by simp [Except.toOption, h1 rfl], by simp [Except.toOption, h2 rfl]⟩

/-- C9: a successful device-authorization response in which `expires_in` or
`interval` is present but equal to 0 also gets the default (1800 resp. 5):
the code uses JavaScript `||`, which treats a reported 0 as falsy. -/
theorem deviceAuth_defaults_on_zero (r : DeviceAuthHttpResponse)
    (hok : httpOk r.status = true)
    (hu : truthy r.user_code = true) (hd : truthy r.device_code = true)
    (hv : truthy r.verification_uri_complete = true) :
    (∃ a, requestDeviceAuthorization r = .ok a)
    ∧ ∀ a, requestDeviceAuthorization r = .ok a →
        (r.expires_in = some 0 → a.expires_in = 1800)
        ∧ (r.interval = some 0 → a.interval = 5) := by
  constructor
  · have h : requestDeviceAuthorization r = .ok
        { user_code := r.user_code.getD ""
          device_code := r.device_code.getD ""
          verification_uri := jsStrOr r.verification_uri ""
          verification_uri_complete := r.verification_uri_complete.getD ""
          expires_in := jsIntOr r.expires_in 1800
          interval := jsIntOr r.interval 5 } := by
      simp [requestDeviceAuthorization, hok, hu, hd, hv]
    exact ⟨_, h⟩
  · intro a ha
    simp [requestDeviceAuthorization, hok, hu, hd, hv] at ha
    constructor
    · intro h
      rw [← ha]
      simp [h, jsIntOr]
    · intro h
      rw [← ha]
      simp [h, jsIntOr]

/-- C9 witness: a concrete successful response reporting `expires_in = 0`
and `interval = 0` gets lifetime 1800 and interval 5. -/
theorem deviceAuth_defaults_on_zero_witness :
    (requestDeviceAuthorization
        { status := 200, user_code := some "AB", device_code := some "dc",
          verification_uri_complete := some "https://u",
          expires_in := some 0, interval := some 0 }).toOption.map
        DeviceAuthorization.expires_in = some 1800
    ∧ (requestDeviceAuthorization
        { status := 200, user_code := some "AB", device_code := some "dc",
          verification_uri_complete := some "https://u",
          expires_in := some 0, interval := some 0 }).toOption.map
        DeviceAuthorization.interval = some 5 := by
  obtain ⟨⟨a, ha⟩, hall⟩ := deviceAuth_defaults_on_zero
    { status := 200, user_code := some "AB", device_code := some "dc",
      verification_uri_complete := some "https://u",
      expires_in := some 0, interval := some 0 }
    (by decide) (by decide) (by decide) (by decide)
  obtain ⟨h1, h2⟩ := hall a ha
  rw [ha]
  exact ⟨by simp [Except.toOption, h1 rfl], by simp [Except.toOption, h2 rfl]⟩

/-- C10: a required response field that is present but empty is treated
exactly like an absent field. A 200 device-authorization response with
`user_code`, `device_code` or `verification_uri_complete` equal to `""`
fails with the malformed-response error, and a 200 token response with
`access_token` or `refresh_token` equal to `""` fails with the
missing-required-fields error; moreover replacing any of these fields'
`some ""` by `none` leaves the function's result unchanged. -/
theorem empty_string_fields_as_absent (ra : DeviceAuthHttpResponse)
    (rt : TokenHttpResponse) :
    (httpOk ra.status = true →
      (ra.user_code = some "" ∨ ra.device_code = some ""
        ∨ ra.verification_uri_complete = some "") →
      requestDeviceAuthorization ra = .error "Invalid device authorization response")
    ∧ (rt.status = 200 →
        (rt.access_token = some "" ∨ rt.refresh_token = some "") →
        requestDeviceToken rt = .error "Token response missing required fields")
    ∧ requestDeviceAuthorization { ra with user_code := some "" }
        = requestDeviceAuthorization { ra with user_code := none }
    ∧ requestDeviceAuthorization { ra with device_code := some "" }
        = requestDeviceAuthorization { ra with device_code := none }
    ∧ requestDeviceAuthorization { ra with verification_uri_complete := some "" }
        = requestDeviceAuthorization { ra with verification_uri_complete := none }
    ∧ requestDeviceToken { rt with access_token := some "" }
        = requestDeviceToken { rt with access_token := none }
    ∧ requestDeviceToken { rt with refresh_token := some "" }
        = requestDeviceToken { rt with refresh_token := none } := by
  refine ⟨?_, ?_, ?_, ?_, ?_, ?_, ?_⟩
  · intro hok h
    rcases h with h | h | h <;> simp [requestDeviceAuthorization, hok, h, truthy]
  · intro hs h
    rcases h with h | h <;> simp [requestDeviceToken, hs, h, truthy]
  · simp [requestDeviceAuthorization, truthy]
  · simp [requestDeviceAuthorization, truthy]
  · simp [requestDeviceAuthorization, truthy]
  · simp [requestDeviceToken, truthy]
  · simp [requestDeviceToken, truthy]

/-- C10 witness: concrete 200 responses carrying empty required fields fail
with the malformed-response / missing-required-fields errors. -/
theorem empty_string_fields_as_absent_witness :
    requestDeviceAuthorization
        { status := 200, user_code := some "", device_code := some "dc",
          verification_uri_complete := some "https://u" }
        = .error "Invalid device authorization response"
    ∧ requestDeviceToken
        { status := 200, access_token := some "", refresh_token := some "rt" }
        = .error "Token response missing required fields" := by
  constructor
  · exact (empty_string_fields_as_absent
      { status := 200, user_code := some "", device_code := some "dc",
        verification_uri_complete := some "https://u" }
      { status := 200, access_token := some "", refresh_token := some "rt" }).1
      (by decide) (Or.inl rfl)
  · exact (empty_string_fields_as_absent
      { status := 200, user_code := some "", device_code := some "dc",
        verification_uri_complete := some "https://u" }
      { status := 200, access_token := some "", refresh_token := some "rt" }).2.1
      rfl (Or.inl rfl)

/-- C5: a `TokenResponse` with `expires_in = n` converted to credentials at
time `T` — as done on login success and on refresh, both via the inline
object embedded here as `mkCredentials` — yields `access` and `refresh`
copied from the response and `expires = T + n * 1000`; `refreshKimiCodeToken`
and `loginKimiCode` both return exactly such a value. -/
theorem credentials_roundtrip (now : Int) (t : TokenResponse)
    (r : TokenHttpResponse) (tr : TokenResponse)
    (r0 : RoundScript) (rest : List RoundScript)
    (auth : DeviceAuthorization) (t0 : TokenResponse)
    (hr : refreshAccessToken r = .ok tr)
    (hauth : requestDeviceAuthorization r0.authResponse = .ok auth)
    (hloop : (pollLoop auth (max auth.interval 1 * 1000)
        (r0.authNow + auth.expires_in * 1000) false r0.iters).1
        = some (.success t0)) :
    (mkCredentials now t).access = t.access_token
    ∧ (mkCredentials now t).refresh = t.refresh_token
    ∧ (mkCredentials now t).expires = now + t.expires_in * 1000
    ∧ refreshKimiCodeToken now r = .ok (mkCredentials now tr)
    ∧ (loginKimiCode (r0 :: rest)).1 = some (.ok (mkCredentials r0.successNow t0)) := by
  refine ⟨rfl, rfl, rfl, ?_, ?_⟩
  · simp [refreshKimiCodeToken, hr, Except.map]
  · simp [loginKimiCode, hauth, hloop]

/-- C5 witness: a concrete login script and a concrete refresh exchange,
both with `expires_in = 3600` at time 1000, return credentials expiring at
1000 + 3600000. -/
theorem credentials_roundtrip_witness :
    refreshKimiCodeToken 1000
        { status := 200, access_token := some "at2", refresh_token := some "rt2",
          expires_in := 3600 }
      = .ok { access := "at2", refresh := "rt2", expires := 1000 + 3600 * 1000 }
    ∧ (loginKimiCode
        [{ authResponse := { status := 200
                             user_code := some "AB"
                             device_code := some "dc"
                             verification_uri_complete := some "https://u" }
           authNow := 0
           iters := [{ now := 0
                       poll := { status := 200
                                 access_token := some "at1"
                                 refresh_token := some "rt1"
                                 expires_in := 3600 }
                       aborted := false }]
           successNow := 1000 }]).1
      = some (.ok { access := "at1", refresh := "rt1", expires := 1000 + 3600 * 1000 }) := by
  have h := credentials_roundtrip 1000
    { access_token := "x"
      refresh_token := "y"
      expires_in := 0
      scope := ""
      token_type := "" }
    { status := 200
      access_token := some "at2"
      refresh_token := some "rt2"
      expires_in := 3600 }
    { access_token := "at2"
      refresh_token := "rt2"
      expires_in := 3600
      scope := ""
      token_type := "" }
    { authResponse := { status := 200
                        user_code := some "AB"
                        device_code := some "dc"
                        verification_uri_complete := some "https://u" }
      authNow := 0
      iters := [{ now := 0
                  poll := { status := 200
                            access_token := some "at1"
                            refresh_token := some "rt1"
                            expires_in := 3600 }
                  aborted := false }]
      successNow := 1000 }
    []
    { user_code := "AB"
      device_code := "dc"
      verification_uri := ""
      verification_uri_complete := "https://u"
      expires_in := 1800
      interval := 5 }
    { access_token := "at1"
      refresh_token := "rt1"
      expires_in := 3600
      scope := ""
      token_type := "" }
    rfl rfl rfl
  exact ⟨h.2.2.2.1, h.2.2.2.2⟩

/-- C6 counterexample: a refresh exchange succeeding with the non-negative
reported lifetime `expires_in = 0`, performed at time 1000, yields
credentials whose `expires` equals the construction time — not a strictly
future timestamp. The code applies no default or validation to the token
response's `expires_in`. -/
theorem credentials_expiry_zero_lifetime :
    (0 : Int) ≤ 0
    ∧ refreshKimiCodeToken 1000
        { status := 200
          access_token := some "a"
          refresh_token := some "b"
          expires_in := 0 }
      = .ok { access := "a", refresh := "b", expires := 1000 }
    ∧ ¬ 1000 < ({ access := "a", refresh := "b", expires := 1000 }
          : OAuthCredentials).expires := by
  refine ⟨le_refl 0, rfl, by simp⟩

/-- C6 amended: credentials constructed at time `T` from a token response
with non-negative `expires_in` satisfy `expires ≥ T`, and `expires > T`
exactly when `expires_in` is positive; the spec's strict-future invariant
holds only under positivity, since `expires_in = 0` gives `expires = T`. -/
theorem credentials_expiry_not_past (now : Int) (t : TokenResponse)
    (h : 0 ≤ t.expires_in) :
    now ≤ (mkCredentials now t).expires
    ∧ (0 < t.expires_in → now < (mkCredentials now t).expires) := by
  unfold mkCredentials
  constructor
  · simp
    omega
  · intro hpos
    simp
    omega

/-- C6 amended witness: at time 7 with lifetime 60 the credential expires at
7 + 60000, which is strictly later than 7. -/
theorem credentials_expiry_not_past_witness :
    7 ≤ (mkCredentials 7
        { access_token := "a"
          refresh_token := "b"
          expires_in := 60
          scope := ""
          token_type := "" }).expires
    ∧ 7 < (mkCredentials 7
        { access_token := "a"
          refresh_token := "b"
          expires_in := 60
          scope := ""
          token_type := "" }).expires := by
  have h := credentials_expiry_not_past 7
    { access_token := "a"
      refresh_token := "b"
      expires_in := 60
      scope := ""
      token_type := "" }
    (by decide)
  exact ⟨h.1, h.2 (by decide)⟩

/-- C2: `requestDeviceToken` classifies its single response exactly as the
spec's table says: 200 with both tokens present (non-empty) returns the
populated token response; 400 `authorization_pending` returns the non-error
"no token yet" (`null`); 400 `expired_token` fails with the message
`"expired_token"`, which no other input can produce (the distinguished
expired-device-code error); 200 missing a required field, any other 400
error, and any other status each fail with a fatal error whose message is
never `"expired_token"`. The function is a pure classification of one POST
response, with no internal retry. -/
theorem requestDeviceToken_classification (r : TokenHttpResponse) :
    (r.status = 200 → truthy r.access_token = true → truthy r.refresh_token = true →
      requestDeviceToken r = .ok (some
        { access_token := r.access_token.getD ""
          refresh_token := r.refresh_token.getD ""
          expires_in := r.expires_in
          scope := r.scope
          token_type := r.token_type }))
    ∧ (r.status = 400 → r.error = some "authorization_pending" →
        requestDeviceToken r = .ok none)
    ∧ (r.status = 400 → r.error = some "expired_token" →
        requestDeviceToken r = .error "expired_token")
    ∧ (r.status = 200 →
        ¬ (truthy r.access_token = true ∧ truthy r.refresh_token = true) →
        requestDeviceToken r = .error "Token response missing required fields")
    ∧ (r.status = 400 → r.error ≠ some "authorization_pending" →
        r.error ≠ some "expired_token" →
        requestDeviceToken r = .error ("Token request failed: "
          ++ jsStrOr r.error_description (jsStrOr r.error "unknown")))
    ∧ (r.status ≠ 200 → r.status ≠ 400 →
        requestDeviceToken r
          = .error ("Token request failed: " ++ toString r.status ++ " " ++ r.text))
    ∧ (∀ m, requestDeviceToken r = .error m →
        (m = "expired_token" ↔ r.status = 400 ∧ r.error = some "expired_token")) := by
  refine ⟨?_, ?_, ?_, ?_, ?_, ?_, ?_⟩
  · intro hs ha hr
    simp [requestDeviceToken, hs, ha, hr]
  · intro hs he
    simp [requestDeviceToken, hs, he]
  · intro hs he
    simp [requestDeviceToken, hs, he]
  · intro hs hmiss
    cases ha : truthy r.access_token with
    | false => simp [requestDeviceToken, hs, ha]
    | true =>
      cases hb : truthy r.refresh_token with
      | false => simp [requestDeviceToken, hs, ha, hb]
      | true => exact absurd ⟨ha, hb⟩ hmiss
  · intro hs hp he
    simp [requestDeviceToken, hs, hp, he]
  · intro h200 h400
    simp [requestDeviceToken, h200, h400]
  · intro m hm
    constructor
    · intro hexp
      subst hexp
      by_cases h200 : r.status = 200
      · exfalso
        cases ha : truthy r.access_token with
        | false =>
          rw [show requestDeviceToken r
              = .error "Token response missing required fields" from
            by simp [requestDeviceToken, h200, ha]] at hm
          injection hm with hm
          exact absurd hm (by decide)
        | true =>
          cases hb : truthy r.refresh_token with
          | false =>
            rw [show requestDeviceToken r
                = .error "Token response missing required fields" from
              by simp [requestDeviceToken, h200, ha, hb]] at hm
            injection hm with hm
            exact absurd hm (by decide)
          | true =>
            rw [show requestDeviceToken r = .ok (some
                { access_token := r.access_token.getD ""
                  refresh_token := r.refresh_token.getD ""
                  expires_in := r.expires_in
                  scope := r.scope
                  token_type := r.token_type }) from
              by simp [requestDeviceToken, h200, ha, hb]] at hm
            simp at hm
      · by_cases h400 : r.status = 400
        · refine ⟨h400, ?_⟩
          by_cases hp : r.error = some "authorization_pending"
          · rw [show requestDeviceToken r = .ok none from
              by simp [requestDeviceToken, h200, h400, hp]] at hm
            simp at hm
          · by_cases he : r.error = some "expired_token"
            · exact he
            · exfalso
              rw [show requestDeviceToken r = .error ("Token request failed: "
                    ++ jsStrOr r.error_description (jsStrOr r.error "unknown")) from
                by simp [requestDeviceToken, h200, h400, hp, he]] at hm
              injection hm with hm
              exact append_ne_of_length_lt "Token request failed: "
                (jsStrOr r.error_description (jsStrOr r.error "unknown"))
                "expired_token" (by decide) hm
        · exfalso
          rw [show requestDeviceToken r = .error ("Token request failed: "
                ++ toString r.status ++ " " ++ r.text) from
            by simp [requestDeviceToken, h200, h400]] at hm
          injection hm with hm
          exact append_ne_of_length_lt
            ("Token request failed: " ++ toString r.status ++ " ") r.text
            "expired_token" (by
              rw [String.length_append, String.length_append]
              have h1 : ("Token request failed: " : String).length = 22 := rfl
              have h2 : (" " : String).length = 1 := rfl
              have h3 : ("expired_token" : String).length = 13 := rfl
              omega) hm
    · intro hee
      rw [show requestDeviceToken r = .error "expired_token" from
        by simp [requestDeviceToken, hee.1, hee.2]] at hm
      simpa using hm.symm

/-- C2 witness: a concrete 400 `authorization_pending` response returns the
"no token yet" result, and a concrete 400 `expired_token` response fails
with the distinguished `"expired_token"` message. -/
theorem requestDeviceToken_classification_witness :
    requestDeviceToken { status := 400, error := some "authorization_pending" }
      = .ok none
    ∧ requestDeviceToken { status := 400, error := some "expired_token" }
      = .error "expired_token" := by
  constructor
  · exact (requestDeviceToken_classification
      { status := 400, error := some "authorization_pending" }).2.1 rfl rfl
  · exact (requestDeviceToken_classification
      { status := 400, error := some "expired_token" }).2.2.1 rfl rfl

/-- The first 15 characters of a generic refresh-failure message, whatever
the status text and body are. -/
theorem take15_generic_refresh (s t : String) :
    (("Token refresh failed: " ++ s ++ " " ++ t) : String).data.take 15
      = ("Token refresh f" : String).data := by
  rw [String.data_append, String.data_append, String.data_append]
  rw [List.append_assoc, List.append_assoc]
  rw [List.take_append_of_le_length (by decide)]
  decide

/-- C8: `refreshAccessToken` fails on 401/403 with the distinguished
"Token refresh unauthorized: …" error; any other non-success status fails
with "Token refresh failed: …", and a success response missing (or
emptying) `access_token`/`refresh_token` fails with the generic
missing-required-fields error. A thrown message begins with the 15
characters "Token refresh u" exactly when the status was 401 or 403, so the
unauthorized kind is distinguishable from both generic failures. The
function classifies a single exchange, with no internal retry. -/
theorem refreshAccessToken_classification (r : TokenHttpResponse) :
    ((r.status = 401 ∨ r.status = 403) →
      refreshAccessToken r = .error ("Token refresh unauthorized: " ++ r.text))
    ∧ (httpOk r.status = false → r.status ≠ 401 → r.status ≠ 403 →
        refreshAccessToken r
          = .error ("Token refresh failed: " ++ toString r.status ++ " " ++ r.text))
    ∧ (httpOk r.status = true →
        ¬ (truthy r.access_token = true ∧ truthy r.refresh_token = true) →
        refreshAccessToken r = .error "Token refresh response missing required fields")
    ∧ (∀ m, refreshAccessToken r = .error m →
        (m.data.take 15 = ("Token refresh u" : String).data
          ↔ (r.status = 401 ∨ r.status = 403))) := by
  have hlen1 : ("Token refresh unauthorized: " : String).length = 28 := rfl
  have hlen2 : ("Token refresh failed: " : String).length = 22 := rfl
  refine ⟨?_, ?_, ?_, ?_⟩
  · intro h
    rcases h with h | h <;> simp [refreshAccessToken, httpOk, h]
  · intro hok h401 h403
    simp [refreshAccessToken, hok, h401, h403]
  · intro hok hmiss
    cases ha : truthy r.access_token with
    | false => simp [refreshAccessToken, hok, ha]
    | true =>
      cases hb : truthy r.refresh_token with
      | false => simp [refreshAccessToken, hok, ha, hb]
      | true => exact absurd ⟨ha, hb⟩ hmiss
  · intro m hm
    cases hok : httpOk r.status with
    | false =>
      by_cases h41 : r.status = 401
      · rw [show refreshAccessToken r
            = .error ("Token refresh unauthorized: " ++ r.text) from
          by simp [refreshAccessToken, httpOk, h41]] at hm
        injection hm with hm
        subst hm
        constructor
        · intro _
          exact Or.inl h41
        · intro _
          rw [take_data_append "Token refresh unauthorized: " r.text 15 (by omega)]
          decide
      · by_cases h43 : r.status = 403
        · rw [show refreshAccessToken r
              = .error ("Token refresh unauthorized: " ++ r.text) from
            by simp [refreshAccessToken, httpOk, h43]] at hm
          injection hm with hm
          subst hm
          constructor
          · intro _
            exact Or.inr h43
          · intro _
            rw [take_data_append "Token refresh unauthorized: " r.text 15 (by omega)]
            decide
        · rw [show refreshAccessToken r
              = .error ("Token refresh failed: " ++ toString r.status ++ " " ++ r.text)
              from by simp [refreshAccessToken, hok, h41, h43]] at hm
          injection hm with hm
          subst hm
          constructor
          · intro htake
            rw [take15_generic_refresh] at htake
            exact absurd htake (by decide)
          · intro h
            rcases h with h | h
            · exact absurd h h41
            · exact absurd h h43
    | true =>
      have hno : ¬ (r.status = 401 ∨ r.status = 403) := by
        rintro (h | h) <;> rw [h] at hok <;> exact absurd hok (by decide)
      cases ha : truthy r.access_token with
      | false =>
        rw [show refreshAccessToken r
            = .error "Token refresh response missing required fields" from
          by simp [refreshAccessToken, hok, ha]] at hm
        injection hm with hm
        subst hm
        constructor
        · intro htake
          exact absurd htake (by decide)
        · intro h
          exact absurd h hno
      | true =>
        cases hb : truthy r.refresh_token with
        | false =>
          rw [show refreshAccessToken r
              = .error "Token refresh response missing required fields" from
            by simp [refreshAccessToken, hok, ha, hb]] at hm
          injection hm with hm
          subst hm
          constructor
          · intro htake
            exact absurd htake (by decide)
          · intro h
            exact absurd h hno
        | true =>
          rw [show refreshAccessToken r = .ok
              { access_token := r.access_token.getD ""
                refresh_token := r.refresh_token.getD ""
                expires_in := r.expires_in
                scope := r.scope
                token_type := r.token_type } from
            by simp [refreshAccessToken, hok, ha, hb]] at hm
          simp at hm

/-- C8 witness: a concrete 401 refresh response fails with the unauthorized
error, whose first 15 characters mark it; a concrete 500 response fails
with the generic error, which lacks that mark. -/
theorem refreshAccessToken_classification_witness :
    refreshAccessToken { status := 401, text := "nope" }
      = .error ("Token refresh unauthorized: " ++ "nope")
    ∧ ("Token refresh unauthorized: nope" : String).data.take 15
      = ("Token refresh u" : String).data
    ∧ refreshAccessToken { status := 500, text := "boom" }
      = .error ("Token refresh failed: " ++ toString 500 ++ " " ++ "boom")
    ∧ ¬ ("Token refresh failed: 500 boom" : String).data.take 15
      = ("Token refresh u" : String).data := by
  refine ⟨?_, by decide, ?_, by decide⟩
  · exact (refreshAccessToken_classification { status := 401, text := "nope" }).1
      (Or.inl rfl)
  · exact (refreshAccessToken_classification { status := 500, text := "boom" }).2.1
      rfl (by decide) (by decide)

/-- The map `pollCodes` distributes over trace concatenation. -/
theorem pollCodes_append (a b : List Action) :
    pollCodes (a ++ b) = pollCodes a ++ pollCodes b := by
  induction a with
  | nil => rfl
  | cons x xs ih => cases x <;> simp [pollCodes, ih]

/-- The count `countAuths` distributes over trace concatenation. -/
theorem countAuths_append (a b : List Action) :
    countAuths (a ++ b) = countAuths a + countAuths b := by
  simp [countAuths, List.filter_append]

/-- The count `countPolls` distributes over trace concatenation. -/
theorem countPolls_append (a b : List Action) :
    countPolls (a ++ b) = countPolls a + countPolls b := by
  simp [countPolls, List.filter_append]

/-- Every token-exchange POST the inner polling loop issues carries the
device code of the `DeviceAuthorization` the loop was started with. -/
theorem pollLoop_codes_aux (auth : DeviceAuthorization) (interval expiresAt : Int) :
    ∀ (script : List IterEvent) (pw : Bool) (c : String),
      c ∈ pollCodes (pollLoop auth interval expiresAt pw script).2 →
      c = auth.device_code := by
  intro script
  induction script with
  | nil =>
    intro pw c hc
    simp [pollLoop, pollCodes] at hc
  | cons e rest ih =>
    intro pw c hc
    by_cases ht : e.now < expiresAt
    · match hq : requestDeviceToken e.poll with
      | .ok (some t) =>
        simp [pollLoop, ht, hq, pollCodes] at hc
        exact hc
      | .ok none =>
        cases hab : e.aborted with
        | true =>
          cases pw <;>
            simp [pollLoop, ht, hq, hab, pollCodes, pollCodes_append] at hc <;>
            exact hc
        | false =>
          cases pw <;>
            simp [pollLoop, ht, hq, hab, pollCodes, pollCodes_append] at hc <;>
            rcases hc with hc | hc <;> first
              | exact hc
              | exact ih true c hc
      | .error msg =>
        by_cases hexp : msg = "expired_token"
        · subst hexp
          simp [pollLoop, ht, hq, pollCodes] at hc
          exact hc
        · simp [pollLoop, ht, hq, hexp, pollCodes] at hc
          exact hc
    · simp [pollLoop, ht, pollCodes] at hc

/-- When a round's inner loop ends in a restart, `loginKimiCode` continues
exactly as a fresh call on the remaining script, after the round's own
actions. -/
theorem loginKimiCode_restart_step (r0 : RoundScript) (rest : List RoundScript)
    (auth : DeviceAuthorization)
    (hauth : requestDeviceAuthorization r0.authResponse = .ok auth)
    (hloop : (pollLoop auth (max auth.interval 1 * 1000)
        (r0.authNow + auth.expires_in * 1000) false r0.iters).1 = some .restart) :
    (loginKimiCode (r0 :: rest)).1 = (loginKimiCode rest).1
    ∧ (loginKimiCode (r0 :: rest)).2
      = [Action.authRequest,
         Action.onAuth auth.verification_uri_complete
           ("Please visit the URL to authorize. Your code: " ++ auth.user_code)]
        ++ (pollLoop auth (max auth.interval 1 * 1000)
            (r0.authNow + auth.expires_in * 1000) false r0.iters).2
        ++ (loginKimiCode rest).2 := by
  constructor <;> simp [loginKimiCode, hauth, hloop]

/-- Every nonempty run of `loginKimiCode` begins with a device-authorization
POST. -/
theorem loginKimiCode_starts_with_auth (r1 : RoundScript) (rest : List RoundScript) :
    (loginKimiCode (r1 :: rest)).2.head? = some Action.authRequest := by
  match hq : requestDeviceAuthorization r1.authResponse with
  | .error msg => simp [loginKimiCode, hq]
  | .ok auth =>
    rcases hk : (pollLoop auth (max auth.interval 1 * 1000)
        (r1.authNow + auth.expires_in * 1000) false r1.iters).1 with _ | o
    · simp [loginKimiCode, hq, hk]
    · cases o <;> simp [loginKimiCode, hq, hk]

/-- Unbounded restart: `n` scripted expired rounds followed by one
successful round yield credentials after exactly `n + 1`
device-authorization POSTs, for every `n`. -/
theorem login_unbounded_aux (n : Nat) :
    (loginKimiCode (List.replicate n expiredRound ++ [successRound])).1
      = some (.ok { access := "at1", refresh := "rt1", expires := 9 + 3600 * 1000 })
    ∧ countAuths (loginKimiCode (List.replicate n expiredRound ++ [successRound])).2
      = n + 1 := by
  induction n with
  | zero =>
    constructor
    · rfl
    · rfl
  | succ k ih =>
    rw [List.replicate_succ, List.cons_append]
    constructor
    · show (loginKimiCode (List.replicate k expiredRound ++ [successRound])).1 = _
      exact ih.1
    · show countAuths ([Action.authRequest,
          Action.onAuth "https://u1"
            ("Please visit the URL to authorize. Your code: " ++ "AB1"),
          Action.pollRequest "dc1",
          Action.onProgress "Device code expired, restarting..."]
        ++ (loginKimiCode (List.replicate k expiredRound ++ [successRound])).2)
        = k + 1 + 1
      rw [countAuths_append, ih.2]
      show 1 + (k + 1) = k + 1 + 1
      omega

/-- Any error thrown by `requestDeviceToken` is the missing-fields message,
a "Token request failed: …" message, or `"expired_token"`. -/
theorem requestDeviceToken_error_shape (r : TokenHttpResponse) (m : String)
    (hm : requestDeviceToken r = .error m) :
    m = "Token response missing required fields"
    ∨ (∃ s, m = "Token request failed: " ++ s)
    ∨ m = "expired_token" := by
  unfold requestDeviceToken at hm
  split at hm
  · split at hm
    · exact absurd hm (by simp)
    · injection hm with hm
      exact Or.inl hm.symm
  · split at hm
    · split at hm
      · exact absurd hm (by simp)
      · split at hm
        · injection hm with hm
          exact Or.inr (Or.inr hm.symm)
        · injection hm with hm
          exact Or.inr (Or.inl ⟨_, hm.symm⟩)
    · injection hm with hm
      rw [String.append_assoc, String.append_assoc] at hm
      exact Or.inr (Or.inl ⟨_, hm.symm⟩)

/-- C3: a poll attempt failing with the expired-device-code signal
(`"expired_token"`) makes the inner loop end in a restart; the orchestrator
then continues exactly as a fresh call on the remaining script, whose first
action is a new device-authorization POST; every token-exchange POST of a
round carries that round's own device code, so an old device code is never
reused after a restart; and the restart repeats without bound: for every
`n`, `n` scripted expired rounds followed by one successful round end in
credentials after exactly `n + 1` device authorizations — there is no
restart counter. -/
theorem expired_token_restarts (r0 : RoundScript) (rest : List RoundScript)
    (auth : DeviceAuthorization) (e : IterEvent) (tl : List IterEvent)
    (i x : Int) (pw : Bool)
    (hauth : requestDeviceAuthorization r0.authResponse = .ok auth)
    (hloop : (pollLoop auth (max auth.interval 1 * 1000)
        (r0.authNow + auth.expires_in * 1000) false r0.iters).1 = some .restart)
    (ht : e.now < x)
    (hexp : requestDeviceToken e.poll = .error "expired_token") :
    (pollLoop auth i x pw (e :: tl)).1 = some .restart
    ∧ (∀ (script : List IterEvent) (pw' : Bool) (c : String),
        c ∈ pollCodes (pollLoop auth i x pw' script).2 → c = auth.device_code)
    ∧ (loginKimiCode (r0 :: rest)).1 = (loginKimiCode rest).1
    ∧ (loginKimiCode (r0 :: rest)).2
        = [Action.authRequest,
           Action.onAuth auth.verification_uri_complete
             ("Please visit the URL to authorize. Your code: " ++ auth.user_code)]
          ++ (pollLoop auth (max auth.interval 1 * 1000)
              (r0.authNow + auth.expires_in * 1000) false r0.iters).2
          ++ (loginKimiCode rest).2
    ∧ (∀ (r1 : RoundScript) (rest' : List RoundScript),
        (loginKimiCode (r1 :: rest')).2.head? = some Action.authRequest)
    ∧ (∀ n : Nat,
        (loginKimiCode (List.replicate n expiredRound ++ [successRound])).1
          = some (.ok { access := "at1", refresh := "rt1", expires := 9 + 3600 * 1000 })
        ∧ countAuths
            (loginKimiCode (List.replicate n expiredRound ++ [successRound])).2
          = n + 1) := by
  refine ⟨?_, ?_, (loginKimiCode_restart_step r0 rest auth hauth hloop).1,
    (loginKimiCode_restart_step r0 rest auth hauth hloop).2,
    loginKimiCode_starts_with_auth, login_unbounded_aux⟩
  · simp [pollLoop, ht, hexp]
  · exact pollLoop_codes_aux auth i x

/-- C3 witness: with the concrete expired round, the call continues on the
remaining script, and two expired rounds before a successful one still end
in the credentials. -/
theorem expired_token_restarts_witness :
    (loginKimiCode [expiredRound, successRound]).1 = (loginKimiCode [successRound]).1
    ∧ (loginKimiCode (List.replicate 2 expiredRound ++ [successRound])).1
      = some (.ok { access := "at1", refresh := "rt1", expires := 9 + 3600 * 1000 }) := by
  have h := expired_token_restarts expiredRound [successRound]
    ⟨"AB1", "dc1", "", "https://u1", 1800, 5⟩
    { now := 0
      poll := { status := 400, error := some "expired_token" }
      aborted := false }
    [] 5000 1 false rfl rfl (by decide) rfl
  exact ⟨h.2.2.1, (h.2.2.2.2.2 2).1⟩

/-- C7: a 400 response with `error == "authorization_pending"` is classified
as the non-error "no token yet" result, and on such a result (with the abort
signal unset) the loop emits exactly one sleep, of
`max(auth.interval, 1) * 1000` milliseconds — `max(interval, 1)` seconds —
after the poll and before continuing with the next attempt. -/
theorem pending_sleeps_max_interval (r : TokenHttpResponse)
    (auth : DeviceAuthorization) (expiresAt : Int) (pw : Bool)
    (e : IterEvent) (rest : List IterEvent)
    (hr : r.status = 400) (he : r.error = some "authorization_pending")
    (ht : e.now < expiresAt)
    (hp : requestDeviceToken e.poll = .ok none)
    (hab : e.aborted = false) :
    requestDeviceToken r = .ok none
    ∧ (pollLoop auth (max auth.interval 1 * 1000) expiresAt pw (e :: rest)).1
        = (pollLoop auth (max auth.interval 1 * 1000) expiresAt true rest).1
    ∧ (pollLoop auth (max auth.interval 1 * 1000) expiresAt pw (e :: rest)).2
        = [Action.pollRequest auth.device_code]
          ++ (if pw then [] else [Action.onProgress "Waiting for authorization..."])
          ++ [Action.sleepMs (max auth.interval 1 * 1000)]
          ++ (pollLoop auth (max auth.interval 1 * 1000) expiresAt true rest).2 := by
  refine ⟨by simp [requestDeviceToken, hr, he], ?_, ?_⟩
  · simp [pollLoop, ht, hp, hab]
  · cases pw <;> simp [pollLoop, ht, hp, hab]

/-- C7 witness: a concrete pending response and a concrete pending
iteration with `interval = 5` sleep 5000 ms before the next attempt. -/
theorem pending_sleeps_max_interval_witness :
    requestDeviceToken { status := 400, error := some "authorization_pending" }
      = .ok none
    ∧ (pollLoop ⟨"AB", "dc", "", "https://u", 1800, 5⟩ (max 5 1 * 1000) 1800000 false
        [{ now := 0
           poll := { status := 400, error := some "authorization_pending" }
           aborted := false }]).2
      = [Action.pollRequest "dc", Action.onProgress "Waiting for authorization...",
         Action.sleepMs (max 5 1 * 1000)] := by
  have h := pending_sleeps_max_interval
    { status := 400, error := some "authorization_pending" }
    ⟨"AB", "dc", "", "https://u", 1800, 5⟩ 1800000 false
    { now := 0
      poll := { status := 400, error := some "authorization_pending" }
      aborted := false }
    [] rfl rfl (by decide) rfl rfl
  refine ⟨h.1, ?_⟩
  rw [h.2.2]
  rfl

/-- C1 counterexample: one round whose two polls both return
`authorization_pending`. The abort check following the first poll reads
`false` and the one following the second reads `true`: the host set the
signal during the sleep between the two attempts. The claim says the signal
is checked at the top of each iteration before the attempt, so no further
token-exchange request would be issued — yet the trace contains a second
token-exchange POST after that sleep, issued before the call fails with
"Authorization aborted". -/
theorem abort_counterexample :
    (loginKimiCode
      [{ authResponse := { status := 200
                           user_code := some "AB"
                           device_code := some "dc"
                           verification_uri_complete := some "https://u" }
         authNow := 0
         iters := [{ now := 0
                     poll := { status := 400, error := some "authorization_pending" }
                     aborted := false },
                   { now := 5000
                     poll := { status := 400, error := some "authorization_pending" }
                     aborted := true }]
         successNow := 0 }]).1 = some (.error "Authorization aborted")
    ∧ (loginKimiCode
      [{ authResponse := { status := 200
                           user_code := some "AB"
                           device_code := some "dc"
                           verification_uri_complete := some "https://u" }
         authNow := 0
         iters := [{ now := 0
                     poll := { status := 400, error := some "authorization_pending" }
                     aborted := false },
                   { now := 5000
                     poll := { status := 400, error := some "authorization_pending" }
                     aborted := true }]
         successNow := 0 }]).2
      = [Action.authRequest,
         Action.onAuth "https://u"
           ("Please visit the URL to authorize. Your code: " ++ "AB"),
         Action.pollRequest "dc",
         Action.onProgress "Waiting for authorization...",
         Action.sleepMs 5000,
         Action.pollRequest "dc"] := by
  constructor
  · rfl
  · rfl

/-- C1 amended: the cancellation signal is checked after each pending poll
result (not at the top of the iteration); when the check reads the signal
as set, the call fails with the distinct "Authorization aborted" error — a
message no token-poll failure can produce — without sleeping and without
issuing any token-exchange request beyond the attempt that just returned
pending. A cancellation signaled between two poll attempts therefore takes
effect only after one further token-exchange request. -/
theorem abort_checked_after_pending (auth : DeviceAuthorization)
    (interval expiresAt : Int) (pw : Bool) (e : IterEvent)
    (rest : List IterEvent)
    (ht : e.now < expiresAt)
    (hp : requestDeviceToken e.poll = .ok none)
    (hab : e.aborted = true) :
    (pollLoop auth interval expiresAt pw (e :: rest)).1
      = some (.fatal "Authorization aborted")
    ∧ countPolls (pollLoop auth interval expiresAt pw (e :: rest)).2 = 1
    ∧ (∀ ms, Action.sleepMs ms ∉ (pollLoop auth interval expiresAt pw (e :: rest)).2)
    ∧ (∀ (r : TokenHttpResponse) (m : String),
        requestDeviceToken r = .error m → m ≠ "Authorization aborted") := by
  refine ⟨?_, ?_, ?_, ?_⟩
  · simp [pollLoop, ht, hp, hab]
  · cases pw <;> simp [pollLoop, ht, hp, hab, countPolls]
  · intro ms
    cases pw <;> simp [pollLoop, ht, hp, hab]
  · intro r m hm
    rcases requestDeviceToken_error_shape r m hm with h | ⟨s, h⟩ | h
    · subst h
      decide
    · subst h
      exact append_ne_of_length_lt "Token request failed: " s
        "Authorization aborted" (by decide)
    · subst h
      decide

/-- C1 amended witness: a pending poll with the abort signal set fails the
loop with "Authorization aborted" after that single poll. -/
theorem abort_checked_after_pending_witness :
    (pollLoop ⟨"AB", "dc", "", "https://u", 1800, 5⟩ 5000 1800000 false
      [{ now := 0
         poll := { status := 400, error := some "authorization_pending" }
         aborted := true }]).1
      = some (.fatal "Authorization aborted")
    ∧ countPolls (pollLoop ⟨"AB", "dc", "", "https://u", 1800, 5⟩ 5000 1800000 false
      [{ now := 0
         poll := { status := 400, error := some "authorization_pending" }
         aborted := true }]).2 = 1 := by
  have h := abort_checked_after_pending ⟨"AB", "dc", "", "https://u", 1800, 5⟩
    5000 1800000 false
    { now := 0
      poll := { status := 400, error := some "authorization_pending" }
      aborted := true }
    [] (by decide) rfl rfl
  exact ⟨h.1, h.2.1⟩

end KimiCode
